import Mathlib

/-!
Verification of the connection-managed broadcast loop of the system
monitoring agent (`scripts/system-monitor-agent.py`, class `SystemMonitor`).

The embedding models:
* client connections as natural numbers, the connection set `self.clients`
  as a duplicate-free `List Nat` (Python set iteration order is the list
  order);
* JSON values by the inductive type `Json`; Python dict truthiness
  (`if metrics:`) is non-emptiness of the field list;
* the pluggable collectors (`psutil` calls inside `get_system_metrics` /
  `get_network_flows`) as an `Except` parameter: `Except.error` stands for
  the collector raising, which the source catches and converts to an empty
  result;
* per-connection send outcomes as a `fails : Nat → Bool` oracle:
  `fails c = true` means `client.send` raises
  (`ConnectionClosed` or any other exception — both excepts mark the
  client disconnected).
-/

/-- JSON values, as produced by `json.loads` / consumed by `json.dumps`. -/
inductive Json where
  | null : Json
  | bool : Bool → Json
  | num : Int → Json
  | str : String → Json
  | arr : List Json → Json
  | obj : List (String × Json) → Json

/-- `get_system_metrics`: the body collects psutil statistics and returns the
metrics dict; `except Exception` prints the error and returns `{}` (the empty
dict).  The collection itself is the `collect` parameter. -/
def get_system_metrics (collect : Except String (List (String × Json))) :
    List (String × Json) :=
  match collect with
  | Except.ok m => m
  | Except.error _ => []

/-- `get_network_flows`: returns the flow list; `except Exception` prints the
error and returns `[]`. -/
def get_network_flows (collect : Except String (List Json)) : List Json :=
  match collect with
  | Except.ok fs => fs
  | Except.error _ => []

/-- Result of one `for client in self.clients:` send loop
(`broadcast_metrics` lines 229-237 / `broadcast_network_flows` lines
259-268): the `(client, message)` pairs delivered, the `disconnected` set,
and the number of `json.dumps(message)` evaluations (one per loop iteration:
`dumps` runs before each `send`, also when that send then raises). -/
structure SendPass where
  sent : List (Nat × Json)
  disconnected : List Nat
  serializeCalls : Nat

/-- The send loop: for each client, serialize the envelope and send; a send
that raises is caught and the client is added to `disconnected`; the loop
continues with the next client. -/
def send_pass (fails : Nat → Bool) (message : Json) : List Nat → SendPass
  | [] => ⟨[], [], 0⟩
  | c :: rest =>
    let r := send_pass fails message rest
    if fails c then ⟨r.sent, c :: r.disconnected, r.serializeCalls + 1⟩
    else ⟨(c, message) :: r.sent, r.disconnected, r.serializeCalls + 1⟩

/-- Observable outcome of `broadcast_metrics` / `broadcast_network_flows`:
messages delivered, the connection set afterwards, how many times the payload
producer was invoked, and how many times the envelope was serialized.  Every
exception inside the operation is caught (`except Exception` at line 243 /
274), so the result type has no error channel. -/
structure BroadcastResult where
  sent : List (Nat × Json)
  clients : List Nat
  producerCalls : Nat
  serializeCalls : Nat

/-- `SystemMonitor.broadcast_metrics` (lines 215-244): return immediately if
`self.clients` is empty; otherwise call `get_system_metrics`; if the dict is
falsy (empty), fall through without sending; otherwise build the envelope
`{"type": "metrics", "payload": metrics}`, run the send loop, and discard
every `disconnected` client from the set after the loop. -/
def broadcast_metrics (clients : List Nat)
    (collect : Except String (List (String × Json)))
    (fails : Nat → Bool) : BroadcastResult :=
  if clients.isEmpty then
    ⟨[], clients, 0, 0⟩
  else
    let metrics := get_system_metrics collect
    if metrics.isEmpty then
      ⟨[], clients, 1, 0⟩
    else
      let message := Json.obj [("type", Json.str "metrics"),
                               ("payload", Json.obj metrics)]
      let pass := send_pass fails message clients
      ⟨pass.sent, clients.filter (fun c => !(pass.disconnected.contains c)),
        1, pass.serializeCalls⟩

/-- `SystemMonitor.broadcast_network_flows` (lines 246-275): identical shape
to `broadcast_metrics` with the `network_flows` envelope and the flow-list
producer (a falsy, i.e. empty, list skips the tick). -/
def broadcast_network_flows (clients : List Nat)
    (collect : Except String (List Json))
    (fails : Nat → Bool) : BroadcastResult :=
  if clients.isEmpty then
    ⟨[], clients, 0, 0⟩
  else
    let flows := get_network_flows collect
    if flows.isEmpty then
      ⟨[], clients, 1, 0⟩
    else
      let message := Json.obj [("type", Json.str "network_flows"),
                               ("payload", Json.arr flows)]
      let pass := send_pass fails message clients
      ⟨pass.sent, clients.filter (fun c => !(pass.disconnected.contains c)),
        1, pass.serializeCalls⟩

/- Basic characterizations of the send loop. -/

theorem send_pass_disconnected (fails : Nat → Bool) (message : Json)
    (clients : List Nat) :
    (send_pass fails message clients).disconnected = clients.filter fails := by
  induction clients with
  | nil => rfl
  | cons c rest ih =>
    simp only [send_pass, List.filter_cons]
    cases h : fails c <;> simp [h, ih]

theorem send_pass_sent (fails : Nat → Bool) (message : Json)
    (clients : List Nat) :
    (send_pass fails message clients).sent =
      (clients.filter (fun c => !(fails c))).map (fun c => (c, message)) := by
  induction clients with
  | nil => rfl
  | cons c rest ih =>
    simp only [send_pass, List.filter_cons]
    cases h : fails c <;> simp [h, ih]

theorem send_pass_serializeCalls (fails : Nat → Bool) (message : Json)
    (clients : List Nat) :
    (send_pass fails message clients).serializeCalls = clients.length := by
  induction clients with
  | nil => rfl
  | cons c rest ih =>
    simp only [send_pass]
    cases h : fails c <;> simp [h, ih]

/-- C3: a broadcast invoked on an empty connection set returns before the
payload producer is called: the producer call count is 0 (and nothing is
sent, and the set stays empty), for both broadcast kinds. -/
theorem c3_empty_set_short_circuits
    (collectM : Except String (List (String × Json)))
    (collectF : Except String (List Json)) (fails : Nat → Bool) :
    (broadcast_metrics [] collectM fails).producerCalls = 0
    ∧ (broadcast_metrics [] collectM fails).sent = []
    ∧ (broadcast_metrics [] collectM fails).clients = []
    ∧ (broadcast_network_flows [] collectF fails).producerCalls = 0
    ∧ (broadcast_network_flows [] collectF fails).sent = []
    ∧ (broadcast_network_flows [] collectF fails).clients = [] := by
  refine ⟨rfl, rfl, rfl, rfl, rfl, rfl⟩

/-- For a pass whose only failing connection is `f`, discarding the
disconnected clients removes exactly `f`. -/
theorem filter_disconnected_single (clients : List Nat) (fails : Nat → Bool)
    (f : Nat) (hmem : f ∈ clients) (hf : fails f = true)
    (hothers : ∀ c ∈ clients, c ≠ f → fails c = false) :
    clients.filter (fun c => !((clients.filter fails).contains c))
      = clients.filter (fun c => !(c == f)) := by
  apply List.filter_congr
  intro c hc
  by_cases hcf : c = f
  · subst hcf
    have h1 : c ∈ clients.filter fails := List.mem_filter.mpr ⟨hc, hf⟩
    simp [List.contains, h1]
  · have h1 : c ∉ clients.filter fails := by
      intro hmem1
      have h2 := (List.mem_filter.mp hmem1).2
      rw [hothers c hc hcf] at h2
      exact Bool.false_ne_true h2
    simp [List.contains, h1, hcf]

/-- C1: in a broadcast on a non-empty connection set with a non-empty
payload, when exactly one connection `f` fails its send, the pass removes
exactly `f` from the set and still delivers the envelope to every other
connection that was in the set at the start of the pass — for both
`broadcast_metrics` and `broadcast_network_flows`. -/
theorem c1_single_failure_isolated (clients : List Nat)
    (m : List (String × Json)) (fs : List Json) (fails : Nat → Bool) (f : Nat)
    (hne : clients ≠ []) (hm : m ≠ []) (hfs : fs ≠ [])
    (hmem : f ∈ clients) (hf : fails f = true)
    (hothers : ∀ c ∈ clients, c ≠ f → fails c = false) :
    (broadcast_metrics clients (Except.ok m) fails).clients
        = clients.filter (fun c => !(c == f))
    ∧ (∀ c ∈ clients, c ≠ f →
        (c, Json.obj [("type", Json.str "metrics"), ("payload", Json.obj m)])
          ∈ (broadcast_metrics clients (Except.ok m) fails).sent)
    ∧ (broadcast_network_flows clients (Except.ok fs) fails).clients
        = clients.filter (fun c => !(c == f))
    ∧ (∀ c ∈ clients, c ≠ f →
        (c, Json.obj [("type", Json.str "network_flows"),
                      ("payload", Json.arr fs)])
          ∈ (broadcast_network_flows clients (Except.ok fs) fails).sent) := by
  have hempty : clients.isEmpty = false := by
    cases clients with
    | nil => exact absurd rfl hne
    | cons a l => rfl
  have hmempty : m.isEmpty = false := by
    cases m with
    | nil => exact absurd rfl hm
    | cons a l => rfl
  have hfsempty : fs.isEmpty = false := by
    cases fs with
    | nil => exact absurd rfl hfs
    | cons a l => rfl
  refine ⟨?_, ?_, ?_, ?_⟩
  · simp only [broadcast_metrics, hempty, Bool.false_eq_true, if_false,
      get_system_metrics, hmempty]
    rw [send_pass_disconnected]
    exact filter_disconnected_single clients fails f hmem hf hothers
  · intro c hc hcf
    simp only [broadcast_metrics, hempty, Bool.false_eq_true, if_false,
      get_system_metrics, hmempty]
    rw [send_pass_sent]
    exact List.mem_map.mpr ⟨c, List.mem_filter.mpr ⟨hc, by
      rw [hothers c hc hcf]; rfl⟩, rfl⟩
  · simp only [broadcast_network_flows, hempty, Bool.false_eq_true, if_false,
      get_network_flows, hfsempty]
    rw [send_pass_disconnected]
    exact filter_disconnected_single clients fails f hmem hf hothers
  · intro c hc hcf
    simp only [broadcast_network_flows, hempty, Bool.false_eq_true, if_false,
      get_network_flows, hfsempty]
    rw [send_pass_sent]
    exact List.mem_map.mpr ⟨c, List.mem_filter.mpr ⟨hc, by
      rw [hothers c hc hcf]; rfl⟩, rfl⟩

/-- Witness for C1 at clients `[1, 2, 3]` where only client `2` fails. -/
theorem c1_witness :
    ([1, 2, 3] : List Nat) ≠ []
    ∧ ([("cpu", Json.num 1)] : List (String × Json)) ≠ []
    ∧ ([Json.num 7] : List Json) ≠ []
    ∧ 2 ∈ ([1, 2, 3] : List Nat)
    ∧ (fun c => c == 2) 2 = true
    ∧ (∀ c ∈ ([1, 2, 3] : List Nat), c ≠ 2 → (fun c => c == 2) c = false)
    ∧ ((broadcast_metrics [1, 2, 3] (Except.ok [("cpu", Json.num 1)])
          (fun c => c == 2)).clients
        = List.filter (fun c => !(c == 2)) [1, 2, 3]
      ∧ (∀ c ∈ ([1, 2, 3] : List Nat), c ≠ 2 →
          (c, Json.obj [("type", Json.str "metrics"),
                        ("payload", Json.obj [("cpu", Json.num 1)])])
            ∈ (broadcast_metrics [1, 2, 3] (Except.ok [("cpu", Json.num 1)])
                (fun c => c == 2)).sent)
      ∧ (broadcast_network_flows [1, 2, 3] (Except.ok [Json.num 7])
          (fun c => c == 2)).clients
        = List.filter (fun c => !(c == 2)) [1, 2, 3]
      ∧ (∀ c ∈ ([1, 2, 3] : List Nat), c ≠ 2 →
          (c, Json.obj [("type", Json.str "network_flows"),
                        ("payload", Json.arr [Json.num 7])])
            ∈ (broadcast_network_flows [1, 2, 3] (Except.ok [Json.num 7])
                (fun c => c == 2)).sent)) :=
  ⟨by simp, by simp, by simp, by decide, by decide, by decide,
    c1_single_failure_isolated [1, 2, 3] [("cpu", Json.num 1)] [Json.num 7]
      (fun c => c == 2) 2 (by simp) (by simp) (by simp) (by decide)
      (by decide) (by decide)⟩

/-- C2: a tick whose payload producer raises (the collector is
`Except.error`, which `get_system_metrics` converts to `{}`) or yields an
empty result sends zero messages, never serializes, and leaves the
connection set unchanged; no error escapes `broadcast_metrics` (its result
is total, with no error channel). -/
theorem c2_collection_failure_atomic (clients : List Nat)
    (collect : Except String (List (String × Json))) (fails : Nat → Bool)
    (h : (∃ msg, collect = Except.error msg)
          ∨ get_system_metrics collect = []) :
    (broadcast_metrics clients collect fails).sent = []
    ∧ (broadcast_metrics clients collect fails).clients = clients
    ∧ (broadcast_metrics clients collect fails).serializeCalls = 0 := by
  have hm : get_system_metrics collect = [] := by
    rcases h with ⟨msg, rfl⟩ | h
    · rfl
    · exact h
  by_cases hc : clients.isEmpty
  · simp [broadcast_metrics, hc]
  · simp only [Bool.not_eq_true] at hc
    simp [broadcast_metrics, hc, hm]

/-- Witness for C2 with one client and a raising collector. -/
theorem c2_witness :
    ((∃ msg, (Except.error "collector boom" :
        Except String (List (String × Json))) = Except.error msg)
      ∨ get_system_metrics (Except.error "collector boom") = [])
    ∧ ((broadcast_metrics [1] (Except.error "collector boom")
          (fun _ => false)).sent = []
      ∧ (broadcast_metrics [1] (Except.error "collector boom")
          (fun _ => false)).clients = [1]
      ∧ (broadcast_metrics [1] (Except.error "collector boom")
          (fun _ => false)).serializeCalls = 0) :=
  ⟨Or.inl ⟨"collector boom", rfl⟩,
    c2_collection_failure_atomic [1] (Except.error "collector boom")
      (fun _ => false) (Or.inl ⟨"collector boom", rfl⟩)⟩

/-- State of one delivery pass observed from outside:
`attempted` — clients whose `json.dumps` + `send` the loop executed, in
order; `runtimeError` — the `for` statement itself raised
`RuntimeError: Set changed size during iteration` (caught only by the outer
`except Exception`, so the post-pass removals are skipped); `finalClients` —
`self.clients` when the broadcast call returns. -/
structure LivePass where
  attempted : List Nat
  runtimeError : Bool
  finalClients : List Nat

/-- The delivery loop of `broadcast_metrics` / `broadcast_network_flows` as
written: `for client in self.clients:` iterates the LIVE set (no copy is
taken).  `event = some k` means a concurrently scheduled
`unregister_client u` (`self.clients.discard(u)`, line 212) runs at the
await point inside the (k+1)-th send.  CPython set iterators check on every
`next()` — including the final one — whether the size of the set changed and then
raise `RuntimeError`; `discard` changes the size exactly when `u` is
present.  On a normal exit the `disconnected` clients of the loop (the attempted
ones whose send raised, per `fails`) are discarded from the live set. -/
def livePassAux (fails : Nat → Bool) (u : Nat) :
    List Nat → List Nat → Option Nat → Bool → List Nat → LivePass
  | pending, live, event, mutated, attempted =>
    if mutated then ⟨attempted, true, live⟩
    else
      match pending with
      | [] => ⟨attempted, false,
          live.filter (fun c => !(attempted.contains c && fails c))⟩
      | c :: rest =>
        match event with
        | some 0 =>
          livePassAux fails u rest (live.erase u) none (live.contains u)
            (attempted ++ [c])
        | some (k + 1) =>
          livePassAux fails u rest live (some k) false (attempted ++ [c])
        | none =>
          livePassAux fails u rest live none false (attempted ++ [c])

/-- The delivery pass over the live `self.clients` set, started on the set
`clients`, with an `unregister_client u` interleaved at await point
`event`. -/
def livePass (clients : List Nat) (fails : Nat → Bool) (u : Nat)
    (event : Option Nat) : LivePass :=
  livePassAux fails u clients clients event false []

/-- Modelled from the spec: the same delivery pass as the spec words it —
"iterating over a stable copy of the set taken at the start of the tick" —
used only as the refinement comparison for the loop the source actually
has.  The copy makes every tick-start member an attempted recipient; an
interleaved `unregister_client u` only mutates the live set; after the pass
the marked clients are discarded. -/
def copyPass (clients : List Nat) (fails : Nat → Bool) (u : Nat)
    (event : Option Nat) : LivePass :=
  let liveAfter :=
    match event with
    | some k => if k < clients.length then clients.erase u else clients
    | none => clients
  ⟨clients, false,
    liveAfter.filter (fun c => !(clients.contains c && fails c))⟩

/-- With no interleaved unregistration, the live-set loop attempts every
pending client and ends normally. -/
theorem livePassAux_none (fails : Nat → Bool) (u : Nat) :
    ∀ (pending live attempted : List Nat),
    livePassAux fails u pending live none false attempted =
      ⟨attempted ++ pending, false,
        live.filter (fun c => !((attempted ++ pending).contains c && fails c))⟩ := by
  intro pending
  induction pending with
  | nil =>
    intro live attempted
    simp [livePassAux]
  | cons c rest ih =>
    intro live attempted
    rw [livePassAux]
    simp only [Bool.false_eq_true, if_false]
    rw [ih live (attempted ++ [c])]
    simp

/-- C4 counterexample: the source iterates the live set, not a stable copy.
On the tick-start set `[1, 2, 3]` with no send failures, an
`unregister_client 3` running at the await point inside the first send
changes the size of the set mid-iteration: the loop raises `RuntimeError` after
attempting only client `1`, so the recipients are NOT the members present
at tick start, mutation DID occur while the delivery iteration was in
progress, and the post-pass removal step is skipped.  The spec-worded
stable-copy pass would have attempted all of `[1, 2, 3]`. -/
theorem c4_counterexample :
    (livePass [1, 2, 3] (fun _ => false) 3 (some 0)).attempted = [1]
    ∧ (livePass [1, 2, 3] (fun _ => false) 3 (some 0)).runtimeError = true
    ∧ (livePass [1, 2, 3] (fun _ => false) 3 (some 0)).attempted ≠ [1, 2, 3]
    ∧ (copyPass [1, 2, 3] (fun _ => false) 3 (some 0)).attempted
        = [1, 2, 3] := by
  refine ⟨rfl, rfl, by decide, rfl⟩

/-- C4 amended: the delivery pass iterates the live connection set directly
(no copy), deferring removals to after the pass; therefore only when no
unregistration is interleaved with the pass do the attempted recipients
equal exactly the members present at tick start, with all removals after
the pass; an unregistration during the pass corrupts the iteration and
aborts delivery to the remaining connections. -/
theorem c4_live_iteration_no_interleaving (clients : List Nat)
    (fails : Nat → Bool) (u : Nat) :
    (livePass clients fails u none).attempted = clients
    ∧ (livePass clients fails u none).runtimeError = false
    ∧ (livePass clients fails u none).finalClients
        = clients.filter (fun c => !(fails c)) := by
  unfold livePass
  rw [livePassAux_none fails u clients clients []]
  refine ⟨by simp, rfl, ?_⟩
  simp only [List.nil_append]
  apply List.filter_congr
  intro c hc
  have h1 : clients.contains c = true := by
    simp [List.contains, hc]
  rw [h1]
  simp

/-- One iteration of the message loop in `handle_client` (lines 286-296):
`json.loads` (here: `raw = none` when it raises `JSONDecodeError`, which is
caught and logged); `data.get("type")` (raises `AttributeError` on a
non-dict value, caught by `except Exception`); `"get_metrics"` triggers
`broadcast_metrics`, `"get_flows"` triggers `broadcast_network_flows`, each
over the whole connection set; anything else does nothing.  The loop body
never unregisters and never lets an exception escape.  Returns the
broadcasts performed and the connection set afterwards. -/
def handle_client_message (clients : List Nat) (raw : Option Json)
    (collectM : Except String (List (String × Json)))
    (collectF : Except String (List Json))
    (fails : Nat → Bool) : List BroadcastResult × List Nat :=
  match raw with
  | none => ([], clients)
  | some (Json.obj fields) =>
    match List.lookup "type" fields with
    | some (Json.str t) =>
      if t = "get_metrics" then
        let r := broadcast_metrics clients collectM fails
        ([r], r.clients)
      else if t = "get_flows" then
        let r := broadcast_network_flows clients collectF fails
        ([r], r.clients)
      else ([], clients)
    | _ => ([], clients)
  | some _ => ([], clients)

/-- C5: an inbound message of type `get_metrics` triggers exactly one
immediate metrics broadcast over the whole connection set, `get_flows`
exactly one network-flows broadcast; malformed JSON, a non-object message,
a missing `type` key, or an unrecognized `type` value trigger no broadcast,
raise no error, and leave the connection set (hence the sending
registration of the sending connection) unchanged. -/
theorem c5_inbound_message_dispatch (clients : List Nat)
    (fields : List (String × Json))
    (collectM : Except String (List (String × Json)))
    (collectF : Except String (List Json)) (fails : Nat → Bool) :
    (List.lookup "type" fields = some (Json.str "get_metrics") →
      handle_client_message clients (some (Json.obj fields))
          collectM collectF fails
        = ([broadcast_metrics clients collectM fails],
           (broadcast_metrics clients collectM fails).clients))
    ∧ (List.lookup "type" fields = some (Json.str "get_flows") →
      handle_client_message clients (some (Json.obj fields))
          collectM collectF fails
        = ([broadcast_network_flows clients collectF fails],
           (broadcast_network_flows clients collectF fails).clients))
    ∧ (handle_client_message clients none collectM collectF fails
        = ([], clients))
    ∧ (∀ t, List.lookup "type" fields = some t →
        t ≠ Json.str "get_metrics" → t ≠ Json.str "get_flows" →
        handle_client_message clients (some (Json.obj fields))
            collectM collectF fails = ([], clients))
    ∧ (List.lookup "type" fields = none →
        handle_client_message clients (some (Json.obj fields))
            collectM collectF fails = ([], clients))
    ∧ (∀ s, handle_client_message clients (some (Json.str s))
          collectM collectF fails = ([], clients)) := by
  refine ⟨?_, ?_, rfl, ?_, ?_, fun s => rfl⟩
  · intro h
    simp [handle_client_message, h]
  · intro h
    simp [handle_client_message, h]
  · intro t h h1 h2
    cases t with
    | str s =>
      have hs1 : s ≠ "get_metrics" := by
        intro hs
        exact h1 (by rw [hs])
      have hs2 : s ≠ "get_flows" := by
        intro hs
        exact h2 (by rw [hs])
      simp [handle_client_message, h, hs1, hs2]
    | null => simp [handle_client_message, h]
    | bool b => simp [handle_client_message, h]
    | num n => simp [handle_client_message, h]
    | arr xs => simp [handle_client_message, h]
    | obj fs => simp [handle_client_message, h]
  · intro h
    simp [handle_client_message, h]

/-- Witness for C5: a `get_metrics` request dispatches one metrics
broadcast over the whole set; a malformed and a non-object message leave
everything unchanged. -/
theorem c5_witness :
    List.lookup "type" [("type", Json.str "get_metrics")]
        = some (Json.str "get_metrics")
    ∧ handle_client_message [7]
          (some (Json.obj [("type", Json.str "get_metrics")]))
          (Except.ok [("cpu", Json.num 1)]) (Except.ok [Json.num 7])
          (fun _ => false)
        = ([broadcast_metrics [7] (Except.ok [("cpu", Json.num 1)])
              (fun _ => false)],
           (broadcast_metrics [7] (Except.ok [("cpu", Json.num 1)])
              (fun _ => false)).clients)
    ∧ handle_client_message [7] none (Except.ok [("cpu", Json.num 1)])
          (Except.ok [Json.num 7]) (fun _ => false) = ([], [7])
    ∧ handle_client_message [7] (some (Json.str "not a dict"))
          (Except.ok [("cpu", Json.num 1)]) (Except.ok [Json.num 7])
          (fun _ => false) = ([], [7]) :=
  ⟨rfl,
    (c5_inbound_message_dispatch [7] [("type", Json.str "get_metrics")]
      (Except.ok [("cpu", Json.num 1)]) (Except.ok [Json.num 7])
      (fun _ => false)).1 rfl,
    (c5_inbound_message_dispatch [7] [("type", Json.str "get_metrics")]
      (Except.ok [("cpu", Json.num 1)]) (Except.ok [Json.num 7])
      (fun _ => false)).2.2.1,
    (c5_inbound_message_dispatch [7] [("type", Json.str "get_metrics")]
      (Except.ok [("cpu", Json.num 1)]) (Except.ok [Json.num 7])
      (fun _ => false)).2.2.2.2.2 "not a dict"⟩

/-- C6 counterexample: `json.dumps(message)` sits inside the per-client send
loop, so with the concrete scenario given in the spec — producer returning
`{"cpu": {"usage": 10}}` and two registered connections — one metrics tick
serializes the envelope twice, not exactly once per tick. -/
theorem c6_counterexample :
    (broadcast_metrics [1, 2]
        (Except.ok [("cpu", Json.obj [("usage", Json.num 10)])])
        (fun _ => false)).serializeCalls = 2
    ∧ (2 : Nat) ≠ 1 :=
  ⟨rfl, by decide⟩

theorem length_filter_fst_map_pair (g : Nat → Json) (c : Nat) :
    ∀ l : List Nat,
    ((l.map (fun x => (x, g x))).filter (fun p => p.1 == c)).length
      = (l.filter (fun x => x == c)).length
  | [] => rfl
  | x :: rest => by
    simp only [List.map_cons, List.filter_cons]
    cases h : (x == c) <;>
      simp [h, length_filter_fst_map_pair g c rest]

/-- C6 amended: the envelope `{type: "metrics", payload: <snapshot>}` is
serialized once per connection (not once per tick), each serialization of
the same envelope value; whatever sends fail, the delivered messages are
exactly one copy of that identical envelope per connection whose send does
not raise, so every successfully-reached connection receives it exactly
once that tick.  In particular with producer `{"cpu": {"usage": 10}}` and
two connections both receive the envelope exactly once each. -/
theorem c6_identical_envelope_once_each (clients : List Nat)
    (m : List (String × Json)) (fails : Nat → Bool)
    (hm : m ≠ []) (hnd : clients.Nodup) :
    (broadcast_metrics clients (Except.ok m) fails).sent
        = (clients.filter (fun c => !(fails c))).map (fun c =>
            (c, Json.obj [("type", Json.str "metrics"),
                          ("payload", Json.obj m)]))
    ∧ (broadcast_metrics clients (Except.ok m) fails).serializeCalls
        = clients.length
    ∧ ∀ c ∈ clients, fails c = false →
        ((broadcast_metrics clients (Except.ok m) fails).sent.filter
            (fun p => p.1 == c)).length = 1 := by
  have hmempty : m.isEmpty = false := by
    cases m with
    | nil => exact absurd rfl hm
    | cons a l => rfl
  by_cases hc : clients.isEmpty
  · have hnil : clients = [] := by
      cases clients with
      | nil => rfl
      | cons a l => exact absurd hc (by simp)
    subst hnil
    exact ⟨rfl, rfl, by intro c hcm; cases hcm⟩
  · simp only [Bool.not_eq_true] at hc
    have hsent : (broadcast_metrics clients (Except.ok m) fails).sent
        = (clients.filter (fun c => !(fails c))).map (fun c =>
            (c, Json.obj [("type", Json.str "metrics"),
                          ("payload", Json.obj m)])) := by
      simp only [broadcast_metrics, hc, Bool.false_eq_true, if_false,
        get_system_metrics, hmempty]
      rw [send_pass_sent]
    refine ⟨hsent, ?_, ?_⟩
    · simp only [broadcast_metrics, hc, Bool.false_eq_true, if_false,
        get_system_metrics, hmempty]
      rw [send_pass_serializeCalls]
    · intro c hcm hfc
      rw [hsent, length_filter_fst_map_pair]
      have hmemf : c ∈ clients.filter (fun x => !(fails x)) :=
        List.mem_filter.mpr ⟨hcm, by rw [hfc]; rfl⟩
      have hndf : (clients.filter (fun x => !(fails x))).Nodup :=
        hnd.filter _
      have hcount : (clients.filter (fun x => !(fails x))).count c = 1 :=
        List.count_eq_one_of_mem hndf hmemf
      rw [List.count, List.countP_eq_length_filter] at hcount
      exact hcount

/-- Witness for C6 amended at a mixed tick: three connections with the
producer of the concrete scenario given in the spec, where the send to
client `2` raises; each of the successfully-reached clients `1` and `3`
receives the identical envelope exactly once, and the envelope is
serialized three times (once per connection). -/
theorem c6_witness :
    ([("cpu", Json.obj [("usage", Json.num 10)])] :
        List (String × Json)) ≠ []
    ∧ ([1, 2, 3] : List Nat).Nodup
    ∧ ((broadcast_metrics [1, 2, 3]
          (Except.ok [("cpu", Json.obj [("usage", Json.num 10)])])
          (fun c => c == 2)).sent
        = (List.filter (fun c => !(c == 2)) [1, 2, 3]).map (fun c =>
            (c, Json.obj [("type", Json.str "metrics"),
                ("payload",
                  Json.obj [("cpu", Json.obj [("usage", Json.num 10)])])]))
      ∧ (broadcast_metrics [1, 2, 3]
          (Except.ok [("cpu", Json.obj [("usage", Json.num 10)])])
          (fun c => c == 2)).serializeCalls = ([1, 2, 3] : List Nat).length
      ∧ ∀ c ∈ ([1, 2, 3] : List Nat), (fun c => c == 2) c = false →
          ((broadcast_metrics [1, 2, 3]
              (Except.ok [("cpu", Json.obj [("usage", Json.num 10)])])
              (fun c => c == 2)).sent.filter (fun p => p.1 == c)).length
            = 1) :=
  ⟨by simp, by decide,
    c6_identical_envelope_once_each [1, 2, 3]
      [("cpu", Json.obj [("usage", Json.num 10)])] (fun c => c == 2)
      (by simp) (by decide)⟩

/-- The two broadcast kinds triggered by the timer loop. -/
inductive BroadcastKind where
  | metrics : BroadcastKind
  | networkFlows : BroadcastKind
deriving DecidableEq

/-- One iteration of the `while self.running` loop in `start_monitoring`
(lines 309-318), at current wall-clock second `now` (`int(time.time())`):
`broadcast_metrics` runs unconditionally each 1-second period, and
`broadcast_network_flows` additionally runs when `now % 2 == 0`. -/
def monitor_tick (now : Nat) : List BroadcastKind :=
  [BroadcastKind.metrics]
    ++ (if now % 2 = 0 then [BroadcastKind.networkFlows] else [])

/-- C7: every timer-loop iteration triggers the metrics broadcast exactly
once, and triggers the network-flows broadcast if and only if the current
wall-clock second is even; when it does, both fire within the same tick. -/
theorem c7_timer_cadence (now : Nat) :
    (monitor_tick now).count BroadcastKind.metrics = 1
    ∧ (BroadcastKind.networkFlows ∈ monitor_tick now ↔ now % 2 = 0)
    ∧ (now % 2 = 0 →
        monitor_tick now = [BroadcastKind.metrics,
                            BroadcastKind.networkFlows]) := by
  by_cases h : now % 2 = 0 <;>
    simp [monitor_tick, h]

/-- Witness for C7 at the even second 4 and the odd second 5. -/
theorem c7_witness :
    ((4 : Nat) % 2 = 0
      → monitor_tick 4 = [BroadcastKind.metrics, BroadcastKind.networkFlows])
    ∧ (BroadcastKind.networkFlows ∈ monitor_tick 5 ↔ (5 : Nat) % 2 = 0) :=
  ⟨(c7_timer_cadence 4).2.2, (c7_timer_cadence 5).2.1⟩

/-- The send loop with explicit per-send durations: each
`await client.send(json.dumps(message))` (line 232) is awaited bare — no
`asyncio.wait_for`, no deadline of any kind — so a send occupies its full
duration `dur c`; the elapsed time of the pass is the sum of all durations,
and a client lands in `disconnected` exactly when its send raises
(`raisesEx c`), never because of how long it took. -/
def send_loop_timed (clients : List Nat) (dur : Nat → Nat)
    (raisesEx : Nat → Bool) : Nat × List Nat :=
  clients.foldl
    (fun (acc : Nat × List Nat) c =>
      (acc.1 + dur c, if raisesEx c then acc.2 ++ [c] else acc.2))
    (0, [])

theorem send_loop_timed_foldl (dur : Nat → Nat) (raisesEx : Nat → Bool) :
    ∀ (clients : List Nat) (t : Nat) (d : List Nat),
    clients.foldl
      (fun (acc : Nat × List Nat) c =>
        (acc.1 + dur c, if raisesEx c then acc.2 ++ [c] else acc.2))
      (t, d)
    = (t + (clients.map dur).sum, d ++ clients.filter raisesEx)
  | [], t, d => by simp
  | c :: rest, t, d => by
    simp only [List.foldl_cons, List.map_cons, List.sum_cons,
      List.filter_cons]
    cases h : raisesEx c <;>
      simp [h, send_loop_timed_foldl dur raisesEx rest,
        Nat.add_assoc, List.append_assoc]

/-- C8 counterexample: there is no deadline `d` such that a connection
whose send takes longer than `d` is treated as a send failure — in the
code a non-raising send of any duration completes and the client is never
removed; e.g. a single client whose send takes `d + 1` time units stays in
the (empty) `disconnected` result of the loop for every candidate `d`. -/
theorem c8_counterexample :
    ¬ ∃ d : Nat, ∀ t : Nat, d < t →
        0 ∈ (send_loop_timed [0] (fun _ => t) (fun _ => false)).2 := by
  intro hex
  rcases hex with ⟨d, h⟩
  have h1 := h (d + 1) (Nat.lt_succ_self d)
  rw [send_loop_timed, send_loop_timed_foldl] at h1
  simp at h1

/-- C8 amended: per-connection sends have no deadline: a connection is
removed (marked disconnected) exactly when its send raises, regardless of
duration, and the delivery pass takes the full sum of all per-connection
send durations — a single slow client delays the tick by its entire send
duration. -/
theorem c8_no_send_deadline (clients : List Nat) (dur : Nat → Nat)
    (raisesEx : Nat → Bool) :
    (send_loop_timed clients dur raisesEx).2 = clients.filter raisesEx
    ∧ (send_loop_timed clients dur raisesEx).1 = (clients.map dur).sum := by
  rw [send_loop_timed, send_loop_timed_foldl]
  simp

/-- Trace of the `while self.running` loop in `start_monitoring`
(lines 309-322) observed for `fuel` iterations starting at iteration `i`:
each executed iteration records its index and whether the body of the tick
raised (`tickErr`); the body is wrapped in `try ... except Exception`, so
an erring tick only prints and sleeps — control flow is unaffected and the
loop re-tests `self.running` (the `running` stream). -/
def start_monitoring_trace : Nat → Nat → (Nat → Bool) → (Nat → Bool) →
    List (Nat × Bool)
  | 0, _, _, _ => []
  | fuel + 1, i, running, tickErr =>
    if running i then
      (i, tickErr i) :: start_monitoring_trace fuel (i + 1) running tickErr
    else []

theorem start_monitoring_trace_err_irrelevant :
    ∀ (fuel i : Nat) (running e1 e2 : Nat → Bool),
    (start_monitoring_trace fuel i running e1).map Prod.fst
      = (start_monitoring_trace fuel i running e2).map Prod.fst
  | 0, i, running, e1, e2 => rfl
  | fuel + 1, i, running, e1, e2 => by
    rw [start_monitoring_trace, start_monitoring_trace]
    cases h : running i <;>
      simp [h, start_monitoring_trace_err_irrelevant fuel (i + 1) running e1 e2]

theorem start_monitoring_trace_full :
    ∀ (fuel i : Nat) (running tickErr : Nat → Bool),
    (∀ j, running j = true) →
    (start_monitoring_trace fuel i running tickErr).length = fuel
  | 0, i, running, tickErr, h => rfl
  | fuel + 1, i, running, tickErr, h => by
    rw [start_monitoring_trace]
    simp [h i, start_monitoring_trace_full fuel (i + 1) running tickErr h]

/-- C9: per-tick errors never terminate the timer loop.  The iterations the
loop executes are independent of which ticks err (every exception in a tick
body is caught), an erring tick is immediately followed by the next
iteration whenever `running` still holds, if `running` never goes false the
loop runs for the whole observation window however many ticks err, and the
loop yields no further iteration exactly when `running` is false. -/
theorem c9_loop_survives_tick_errors (fuel i : Nat)
    (running e1 e2 : Nat → Bool) :
    (start_monitoring_trace fuel i running e1).map Prod.fst
        = (start_monitoring_trace fuel i running e2).map Prod.fst
    ∧ ((∀ j, running j = true) →
        (start_monitoring_trace fuel i running e1).length = fuel)
    ∧ (start_monitoring_trace (fuel + 1) i running e1 = []
        ↔ running i = false) := by
  refine ⟨start_monitoring_trace_err_irrelevant fuel i running e1 e2,
    start_monitoring_trace_full fuel i running e1, ?_⟩
  rw [start_monitoring_trace]
  cases h : running i <;> simp [h]

/-- Witness for C9: three iterations where every tick errs still run to the
end of the observation window, and the loop stops exactly on
`running = false`. -/
theorem c9_witness :
    ((start_monitoring_trace 3 0 (fun _ => true) (fun _ => true)).map
        Prod.fst
      = (start_monitoring_trace 3 0 (fun _ => true) (fun _ => false)).map
        Prod.fst)
    ∧ (∀ j : Nat, (fun (_ : Nat) => true) j = true)
    ∧ (start_monitoring_trace 3 0 (fun _ => true) (fun _ => true)).length
        = 3
    ∧ (start_monitoring_trace 3 0 (fun _ => false) (fun _ => true) = []
        ↔ (fun (_ : Nat) => false) 0 = false) :=
  ⟨(c9_loop_survives_tick_errors 3 0 (fun _ => true) (fun _ => true)
      (fun _ => false)).1,
    fun j => rfl,
    (c9_loop_survives_tick_errors 3 0 (fun _ => true) (fun _ => true)
      (fun _ => false)).2.1 (fun j => rfl),
    (c9_loop_survives_tick_errors 2 0 (fun _ => false) (fun _ => true)
      (fun _ => false)).2.2⟩

/-- How the body of `handle_client` (lines 277-303) terminates: the
`async for` ends normally (client closed cleanly), the transport raises
`ConnectionClosed` (caught: `pass`), or some other exception is raised
(caught: logged).  All three paths fall through to `finally`. -/
inductive HandlerExit where
  | normalClose : HandlerExit
  | transportClosed : HandlerExit
  | raisedError : HandlerExit

/-- `handle_client` connection lifecycle: `register_client` adds the
websocket to the set (`set.add`: no-op if present); the body then ends in
one of the `HandlerExit` ways, none of which escapes; `finally` always runs
`unregister_client`, which discards the websocket.  Returns `self.clients`
after the handler returns. -/
def handle_client_lifecycle (clients : List Nat) (ws : Nat)
    (outcome : HandlerExit) : List Nat :=
  let registered := if clients.contains ws then clients else clients ++ [ws]
  let afterBody :=
    match outcome with
    | HandlerExit.normalClose => registered
    | HandlerExit.transportClosed => registered
    | HandlerExit.raisedError => registered
  afterBody.erase ws

/-- C10: however the handler terminates, the connection it registered is no
longer in the connection set when the handler returns, and every other
connection is untouched. -/
theorem c10_handler_always_unregisters (clients : List Nat) (ws : Nat)
    (outcome : HandlerExit) (hnd : clients.Nodup) :
    ws ∉ handle_client_lifecycle clients ws outcome
    ∧ ∀ c ∈ clients, c ≠ ws →
        c ∈ handle_client_lifecycle clients ws outcome := by
  have hreg : (if clients.contains ws then clients
      else clients ++ [ws]).Nodup := by
    by_cases h : clients.contains ws = true
    · rw [if_pos h]
      exact hnd
    · rw [if_neg h]
      have hws : ws ∉ clients := by
        intro hmem
        exact h (by simp [List.contains, hmem])
      exact hnd.append (List.nodup_singleton ws)
        (by
          intro a ha hb
          rw [List.mem_singleton] at hb
          subst hb
          exact hws ha)
  constructor
  · cases outcome <;>
      exact hreg.not_mem_erase
  · intro c hc hne
    have hcreg : c ∈ (if clients.contains ws then clients
        else clients ++ [ws]) := by
      by_cases h : clients.contains ws = true
      · rw [if_pos h]
        exact hc
      · rw [if_neg h]
        exact List.mem_append_left _ hc
    cases outcome <;>
      exact (List.mem_erase_of_ne hne).mpr hcreg

/-- Witness for C10 at clients `[4, 5]`, handler for `4` exiting by
exception. -/
theorem c10_witness :
    ([4, 5] : List Nat).Nodup
    ∧ (4 ∉ handle_client_lifecycle [4, 5] 4 HandlerExit.raisedError
      ∧ ∀ c ∈ ([4, 5] : List Nat), c ≠ 4 →
          c ∈ handle_client_lifecycle [4, 5] 4 HandlerExit.raisedError) :=
  ⟨by decide,
    c10_handler_always_unregisters [4, 5] 4 HandlerExit.raisedError
      (by decide)⟩
